import Mathlib

/-!
Verification of the drone telemetry log parser and view layer of
`plotter.py` (Drone_monitor_web).  The Python functions
`parse_uploaded_file`, `generate_log_info` and the per-metric display
predicates of `update_output` are embedded shallowly: Python strings become
`String`/`List Char`, Python `float` values become `ℚ` (exact decimals; the
exponent/`inf`/`nan` forms, which never occur in these logs, are not
modelled), Python `int` becomes `Int`, and a Python exception aborting the
parse becomes `Option.none`.  The process-wide dict `drones_data` becomes an
association list with Python-dict semantics (insertion order kept, update in
place).
-/

set_option maxRecDepth 4000

namespace DroneMonitor

/-! ## Python string primitives -/

/-- Whitespace characters removed by Python's `str.strip()`. -/
def pyWs (c : Char) : Bool :=
  c = ' ' || c = '\t' || c = '\n' || c = '\r' || c = '\x0b' || c = '\x0c'

/-- Python `str.strip()` on a character list. -/
def pyStrip (cs : List Char) : List Char :=
  ((cs.dropWhile pyWs).reverse.dropWhile pyWs).reverse

/-- Python `str.strip()`. -/
def strStrip (s : String) : String := String.mk (pyStrip s.toList)

/-- Python `s.split(' ', 1)` when it yields two pieces: the text before the
first space and everything after it; `none` when the string has no space
(there Python's tuple unpacking raises `ValueError`). -/
def splitFirstSpaceAux : List Char → Option (List Char × List Char)
  | [] => none
  | c :: cs =>
    if c = ' ' then some ([], cs)
    else
      match splitFirstSpaceAux cs with
      | none => none
      | some (a, b) => some (c :: a, b)

/-- String-level wrapper for `splitFirstSpaceAux`. -/
def splitFirstSpace (s : String) : Option (String × String) :=
  (splitFirstSpaceAux s.toList).map fun p => (String.mk p.1, String.mk p.2)

/-- Characters after the first `=` in a list, `none` if there is no `=`
(there Python's `split('=')[1]` raises `IndexError`). -/
def afterFirstEqAux : List Char → Option (List Char)
  | [] => none
  | c :: cs => if c = '=' then some cs else afterFirstEqAux cs

/-- Python `s.split('=')[1]`: the segment between the first `=` and the next
`=` (or the end of the string); `none` when the string has no `=`. -/
def splitEqSecond (s : String) : Option String :=
  (afterFirstEqAux s.toList).map fun cs => String.mk (cs.takeWhile fun c => c != '=')

/-- Python `s[1:-1]`: drop the first and the last character. -/
def pySlice1m1 (s : String) : String := String.mk (s.toList.drop 1).dropLast

/-- Python `s.split('//')` scanning left to right. -/
def splitDslashAux : List Char → List Char → List (List Char)
  | [], acc => [acc.reverse]
  | '/' :: '/' :: rest, acc => acc.reverse :: splitDslashAux rest []
  | c :: rest, acc => splitDslashAux rest (c :: acc)

/-- String-level wrapper for `splitDslashAux`. -/
def pySplitDslash (s : String) : List String :=
  (splitDslashAux s.toList []).map String.mk

/-- Python `s.split(sep)` for a one-character separator. -/
def splitCharAux (sep : Char) : List Char → List Char → List (List Char)
  | [], acc => [acc.reverse]
  | c :: rest, acc =>
    if c = sep then acc.reverse :: splitCharAux sep rest []
    else splitCharAux sep rest (c :: acc)

/-- String-level wrapper for `splitCharAux`. -/
def pySplitChar (sep : Char) (s : String) : List String :=
  (splitCharAux sep s.toList []).map String.mk

/-- Python `s.replace('gps=', '')`: remove every occurrence of `gps=`,
scanning left to right. -/
def replaceGpsEqAux : List Char → List Char
  | 'g' :: 'p' :: 's' :: '=' :: rest => replaceGpsEqAux rest
  | c :: rest => c :: replaceGpsEqAux rest
  | [] => []

/-! ## Python numeric parsing (`int(...)` and `float(...)`) -/

/-- Accumulate decimal digits; `none` on the first non-digit character. -/
def digitsToNatAux : List Char → Nat → Option Nat
  | [], acc => some acc
  | c :: cs, acc =>
    if c.isDigit then digitsToNatAux cs (acc * 10 + (c.toNat - 48)) else none

/-- Python `int(s)`: strip whitespace, optional sign, then a non-empty run of
decimal digits (underscore grouping, never present in these logs, is not
modelled). -/
def pyInt (s : String) : Option Int :=
  match pyStrip s.toList with
  | '-' :: cs =>
    if cs.isEmpty then none else (digitsToNatAux cs 0).map fun n => -(n : Int)
  | '+' :: cs =>
    if cs.isEmpty then none else (digitsToNatAux cs 0).map fun n => (n : Int)
  | cs =>
    if cs.isEmpty then none else (digitsToNatAux cs 0).map fun n => (n : Int)

/-- Unsigned part of Python `float(s)`: digits, optionally followed by a dot
and further digits, at least one digit overall; the value is the exact
decimal as a rational. -/
def pyFloatCore (cs : List Char) : Option ℚ :=
  let ip := cs.takeWhile Char.isDigit
  match cs.dropWhile Char.isDigit with
  | [] =>
    if ip.isEmpty then none else (digitsToNatAux ip 0).map fun n => (n : ℚ)
  | '.' :: frac =>
    if frac.all Char.isDigit && !(ip.isEmpty && frac.isEmpty) then
      match digitsToNatAux ip 0, digitsToNatAux frac 0 with
      | some n, some f => some ((n : ℚ) + (f : ℚ) / ((10 : ℚ) ^ frac.length))
      | _, _ => none
    else none
  | _ => none

/-- Python `float(s)` restricted to plain decimal notation: strip whitespace,
optional sign, then `pyFloatCore`. -/
def pyFloat (s : String) : Option ℚ :=
  match pyStrip s.toList with
  | '-' :: cs => (pyFloatCore cs).map fun q => -q
  | '+' :: cs => pyFloatCore cs
  | cs => pyFloatCore cs

/-! ## Option-monad plumbing (explicit, for easy equational reasoning) -/

/-- Map a fallible function over a list, failing as soon as one element
fails (Python: the first exception aborts the surrounding loop). -/
def mapOpt (f : α → Option β) : List α → Option (List β)
  | [] => some []
  | x :: xs => (f x).bind fun y => (mapOpt f xs).map fun ys => y :: ys

/-- Fold a fallible step over a list, failing as soon as one step fails. -/
def foldOpt (f : β → α → Option β) (b : β) : List α → Option β
  | [] => some b
  | x :: xs => (f b x).bind fun b' => foldOpt f b' xs

/-! ## Data model -/

/-- One decoded telemetry entry: the local variables `timestamp`,
`gps_status`, `battery`, `rssi`, `driftH`, `driftV`, `fc_error` of one
iteration of the entry loop of `parse_uploaded_file`. -/
structure Sample where
  timestamp : Int
  gps : ℚ
  battery : Option ℚ
  rssi : Option ℚ
  driftH : Option ℚ
  driftV : Option ℚ
  fc_error : Option Int
deriving DecidableEq

/-- One value of the dict `drones_data`: the seven per-drone lists built by
`parse_uploaded_file` for one log line. -/
structure DroneRecord where
  timestamps : List Int
  gps_statuses : List ℚ
  batteries : List (Option ℚ)
  rssis : List (Option ℚ)
  driftHs : List (Option ℚ)
  driftVs : List (Option ℚ)
  fc_errors : List (Int × Int)
deriving DecidableEq

/-- The dict `drones_data`, as an association list with Python-dict
semantics: insertion order preserved, each key held once. -/
abbrev Store := List (String × DroneRecord)

/-- Python `drones_data[drone_id] = record`: replace in place when the key
exists (keeping its original position), append otherwise. -/
def storeSet (st : Store) (k : String) (v : DroneRecord) : Store :=
  if st.any fun p => decide (p.1 = k) then
    st.map fun p => if p.1 = k then (k, v) else p
  else st ++ [(k, v)]

/-- Python `drones_data[drone_id]` / `drones_data.get(drone_id)`. -/
def storeLookup (st : Store) (k : String) : Option DroneRecord :=
  (st.find? fun p => decide (p.1 = k)).map Prod.snd

/-! ## The decoder (`parse_uploaded_file`, lines 43-71 of `plotter.py`) -/

/-- One iteration of `for part in parts[2:]` in `parse_uploaded_file`:
`if '=' in part: key, value = part.split('='); value = value.strip(); ...`
with the `battery`/`rssi`/`driftH`/`driftV`/`fc_error` branches.  Only the
`rssi` branch treats the literal value `None` specially; the other numeric
branches hand the raw value to `float`/`int`, whose failure (modelled as
`none`) aborts the parse.  A `part.split('=')` yielding other than two
pieces is Python's unpack `ValueError`, also `none`. -/
def applyPart (s : Sample) (part : String) : Option Sample :=
  if part.toList.contains '=' then
    match pySplitChar '=' part with
    | [key, value] =>
      let value := strStrip value
      if key = "battery" then (pyFloat value).map fun x => { s with battery := some x }
      else if key = "rssi" then
        if value = "None" then some { s with rssi := none }
        else (pyFloat value).map fun x => { s with rssi := some x }
      else if key = "driftH" then (pyFloat value).map fun x => { s with driftH := some x }
      else if key = "driftV" then (pyFloat value).map fun x => { s with driftV := some x }
      else if key = "fc_error" then (pyInt value).map fun x => { s with fc_error := some x }
      else some s
    | _ => none
  else some s

/-- One iteration of `for entry in entries`: split on `,`, parse
`int(parts[0])` and `float(parts[1].strip().replace('gps=', ''))`, then fold
the remaining parts through `applyPart`.  A missing `parts[1]` is Python's
`IndexError`, and any numeric failure is a `ValueError`; both abort. -/
def decodeEntry (entry : String) : Option Sample :=
  let parts := pySplitChar ',' entry
  (parts[0]?).bind fun p0 =>
    (pyInt p0).bind fun timestamp =>
      (parts[1]?).bind fun p1 =>
        (pyFloat (String.mk (replaceGpsEqAux (pyStrip p1.toList)))).bind fun gps =>
          foldOpt applyPart
            { timestamp := timestamp, gps := gps, battery := none, rssi := none,
              driftH := none, driftV := none, fc_error := none }
            (parts.drop 2)

/-- Lines 70-71: `if fc_error: fc_errors.append((timestamp, fc_error))`.
Python's truthiness keeps the pair exactly when `fc_error` is present and
non-zero. -/
def faultOf (s : Sample) : Option (Int × Int) :=
  s.fc_error.bind fun c => if c = 0 then none else some (s.timestamp, c)

/-- Assemble the seven per-drone lists from the decoded samples, in entry
order, exactly as the appends at lines 64-71 of `plotter.py` do. -/
def buildRecord (samples : List Sample) : DroneRecord where
  timestamps := samples.map (·.timestamp)
  gps_statuses := samples.map (·.gps)
  batteries := samples.map (·.battery)
  rssis := samples.map (·.rssi)
  driftHs := samples.map (·.driftH)
  driftVs := samples.map (·.driftV)
  fc_errors := samples.filterMap faultOf

/-- One non-blank line of the upload (lines 36-71 of `plotter.py`):
`drone_id, data = line.strip().split(' ', 1)`, then
`drone_id = drone_id.split('=')[1]`, then
`entries = data[1:-1].split('//')`, then decode every entry.  Any raised
exception is `none` and aborts the whole-file parse. -/
def parseLine (line : String) : Option (String × DroneRecord) :=
  (splitFirstSpace (strStrip line)).bind fun pr =>
    (splitEqSecond pr.1).bind fun drone_id =>
      (mapOpt decodeEntry (pySplitDslash (pySlice1m1 pr.2))).map fun samples =>
        (drone_id, buildRecord samples)

/-- One iteration of `for line in lines`: blank lines (falsy after
`strip()`) are skipped, every other line must parse. -/
def parseStep (st : Store) (line : String) : Option Store :=
  if strStrip line = "" then some st
  else (parseLine line).map fun p => storeSet st p.1 p.2

/-- `parse_uploaded_file`, from the point where the base64 payload has been
decoded into text lines (the transport prefix and base64 decode at lines
30-32 are glue and are not modelled): rebuild `drones_data` from scratch.
`none` models an uncaught exception aborting the rebuild with no store
produced. -/
def parse_uploaded_file (lines : List String) : Option Store :=
  foldOpt parseStep [] lines

/-! ## Fleet summary (`generate_log_info`, lines 84-94 of `plotter.py`) -/

/-- The list comprehension at line 86:
`[drone_id for drone_id, data in drones_data.items()
  if any(status != 6 for status in data['gps_statuses'])]`.
It iterates the dict in insertion order; no sorting is applied. -/
def nonNominalGpsDroneIds (st : Store) : List String :=
  st.filterMap fun p =>
    if p.2.gps_statuses.any fun g => decide (g ≠ 6) then some p.1 else none

/-! ## Sorting by drone identifier (`sorted(drones_data.items())`) -/

/-- Lexicographic comparison of character lists by code point, as Python
compares strings. -/
def charListLe : List Char → List Char → Bool
  | [], _ => true
  | _ :: _, [] => false
  | a :: as, b :: bs =>
    if a.toNat < b.toNat then true
    else if b.toNat < a.toNat then false
    else charListLe as bs

/-- Python string `<=`. -/
def strLe (a b : String) : Bool := charListLe a.toList b.toList

/-- Insert one pair into a list sorted by `strLe` on the keys. -/
def insertSorted (p : String × DroneRecord) : Store → Store
  | [] => [p]
  | q :: rest => if strLe p.1 q.1 then p :: q :: rest else q :: insertSorted p rest

/-- Python `sorted(drones_data.items())` (keys are unique, so comparison
never reaches the records). -/
def sortStore : Store → Store
  | [] => []
  | p :: rest => insertSorted p (sortStore rest)

/-! ## Per-metric display predicates (`update_output`, lines 229-247) -/

/-- Line 234 (and the identical line for `driftVs`):
`any(v is not None and v > threshold for v in y_values)`. -/
def displayDrift (th : ℚ) (ys : List (Option ℚ)) : Bool :=
  ys.any fun v =>
    match v with
    | some x => decide (th < x)
    | none => false

/-- Line 236: `any(v is not None and v < threshold for v in y_values)`. -/
def displayBattery (th : ℚ) (ys : List (Option ℚ)) : Bool :=
  ys.any fun v =>
    match v with
    | some x => decide (x < th)
    | none => false

/-- Line 238: `any(v is not None and v > threshold for v in y_values)`. -/
def displayRssi (th : ℚ) (ys : List (Option ℚ)) : Bool :=
  ys.any fun v =>
    match v with
    | some x => decide (th < x)
    | none => false

/-- Line 244: `any(v is not None and v > threshold and 0 <= v <= 100 for v
in data['rssis'])`. -/
def displayRssiSik (th : ℚ) (ys : List (Option ℚ)) : Bool :=
  ys.any fun v =>
    match v with
    | some x => decide (th < x) && decide (0 ≤ x) && decide (x ≤ 100)
    | none => false

/-- Lines 240-242: `if all(val == y_values[0] for val in y_values):
continue` (excluded), then `display_drone = any(v != 6 for v in y_values)`.
On an empty list Python's `all` is vacuously true and `y_values[0]` is never
evaluated, so the drone is excluded without an error. -/
def displayGps (ys : List ℚ) : Bool :=
  match ys with
  | [] => false
  | y0 :: _ =>
    if ys.all fun v => decide (v = y0) then false
    else ys.any fun v => decide (v ≠ 6)

/-- The set of drones drawn for one metric: iterate the store sorted by
drone identifier and keep the identifiers whose record passes the display
predicate. -/
def viewBy (p : DroneRecord → Bool) (st : Store) : List String :=
  (sortStore st).filterMap fun q => if p q.2 then some q.1 else none

/-- Drones shown in the `driftHs` view. -/
def driftHView (st : Store) (th : ℚ) : List String :=
  viewBy (fun r => displayDrift th r.driftHs) st

/-- Drones shown in the `driftVs` view. -/
def driftVView (st : Store) (th : ℚ) : List String :=
  viewBy (fun r => displayDrift th r.driftVs) st

/-- Drones shown in the `batteries` view. -/
def batteryView (st : Store) (th : ℚ) : List String :=
  viewBy (fun r => displayBattery th r.batteries) st

/-- Drones shown in the `rssis` view. -/
def rssiView (st : Store) (th : ℚ) : List String :=
  viewBy (fun r => displayRssi th r.rssis) st

/-- Drones shown in the `rssi_sik` view (note that it reads `data['rssis']`,
not a separate series). -/
def rssiSikView (st : Store) (th : ℚ) : List String :=
  viewBy (fun r => displayRssiSik th r.rssis) st

/-- Drones shown in the `gps_statuses` view. -/
def gpsView (st : Store) : List String :=
  viewBy (fun r => displayGps r.gps_statuses) st

/-! ## Fault classification (`ERROR_CODES` and lines 186-205) -/

/-- The static `ERROR_CODES` table of `plotter.py`. -/
def ERROR_CODES (c : Int) : Option String :=
  if c = 128 then some "COMM T/O" else if c = 129 then some "ACK T/O"
  else if c = 130 then some "PROTO" else if c = 131 then some "PREARM"
  else if c = 132 then some "RC LOST" else if c = 133 then some "NO GPS"
  else if c = 139 then some "WIND" else if c = 140 then some "PAYLOAD"
  else if c = 141 then some "PROXIMITY" else if c = 188 then some "SIMERR"
  else if c = 189 then some "CONTROL" else if c = 190 then some "SENSOR"
  else if c = 191 then some "ERROR" else if c = 192 then some "COMPAT"
  else if c = 193 then some "MAG" else if c = 194 then some "GYRO"
  else if c = 195 then some "ACC" else if c = 196 then some "BARO"
  else if c = 197 then some "GPS" else if c = 198 then some "MOTOR"
  else if c = 199 then some "LOWBAT" else if c = 200 then some "HOME"
  else if c = 201 then some "FENCE" else if c = 202 then some "CLK"
  else if c = 203 then some "EXTCLK" else if c = 204 then some "NO HW"
  else if c = 205 then some "INITFAIL" else if c = 206 then some "COMMFAIL"
  else if c = 207 then some "CRASH" else if c = 255 then some "FATAL"
  else none

/-- The fault occurrences plotted by the `fc_errors` branch of
`update_output` (lines 189-205): for each drone in sorted order, each
recorded `(timestamp, code)` pair whose code is in `ERROR_CODES`; a code
absent from the table is skipped (`continue`). -/
def faultOccurrences (st : Store) : List (String × Int × Int) :=
  (sortStore st).foldr
    (fun p acc =>
      (p.2.fc_errors.filterMap fun e =>
        if (ERROR_CODES e.2).isSome then some (p.1, e.1, e.2) else none) ++ acc)
    []

/-- The alignment invariant of a `DroneRecord`: the six per-field sample
sequences have equal length (the fault list is a separate, filtered
series). -/
def sameLengths (r : DroneRecord) : Prop :=
  r.gps_statuses.length = r.timestamps.length ∧
  r.batteries.length = r.timestamps.length ∧
  r.rssis.length = r.timestamps.length ∧
  r.driftHs.length = r.timestamps.length ∧
  r.driftVs.length = r.timestamps.length

/-- Concrete record: one entry at timestamp 1 with gps 6 and no optional
fields. -/
def recSimple : DroneRecord :=
  ⟨[1], [6], [none], [none], [none], [none], []⟩

/-- Concrete record: one entry at timestamp 2 with gps 3 and no optional
fields. -/
def recSimple2 : DroneRecord :=
  ⟨[2], [3], [none], [none], [none], [none], []⟩

/-- Concrete record: one entry whose rssi is 50. -/
def recRssi50 : DroneRecord :=
  ⟨[1], [6], [none], [some 50], [none], [none], []⟩

/-- Concrete record: two entries whose gps statuses are 6 then 3. -/
def recGps63 : DroneRecord :=
  ⟨[1, 2], [6, 3], [none, none], [none, none], [none, none], [none, none], []⟩

/-- Concrete record: every optional metric sample present and equal to 5. -/
def recAt5 : DroneRecord :=
  ⟨[1], [6], [some 5], [some 5], [some 5], [some 5], []⟩

/-! ## Helper lemmas -/

theorem foldOpt_nil (f : β → α → Option β) (b : β) : foldOpt f b [] = some b := rfl

theorem foldOpt_cons (f : β → α → Option β) (b : β) (x : α) (xs : List α) :
    foldOpt f b (x :: xs) = (f b x).bind fun b' => foldOpt f b' xs := rfl

theorem foldOpt_append (f : β → α → Option β) (l1 l2 : List α) (b : β) :
    foldOpt f b (l1 ++ l2) = (foldOpt f b l1).bind fun b' => foldOpt f b' l2 := by
  induction l1 generalizing b with
  | nil => simp [foldOpt]
  | cons x xs ih =>
    rw [List.cons_append, foldOpt_cons, foldOpt_cons]
    cases h : f b x with
    | none => rfl
    | some b' => simp [ih]

theorem foldOpt_abort (f : β → α → Option β) (x : α) (hx : ∀ b, f b x = none) :
    ∀ (l : List α), x ∈ l → ∀ b : β, foldOpt f b l = none := by
  intro l
  induction l with
  | nil => intro h; cases h
  | cons y ys ih =>
    intro hmem b
    rcases List.mem_cons.mp hmem with rfl | hmem'
    · rw [foldOpt_cons, hx b]; rfl
    · rw [foldOpt_cons]
      cases h : f b y with
      | none => rfl
      | some b' => simpa using ih hmem' b'

theorem mapOpt_eq_none (f : α → Option β) (l : List α) (e : α)
    (he : e ∈ l) (hf : f e = none) : mapOpt f l = none := by
  induction l with
  | nil => cases he
  | cons x xs ih =>
    rcases List.mem_cons.mp he with rfl | hmem
    · rw [mapOpt, hf]; rfl
    · rw [mapOpt]
      cases h : f x with
      | none => rfl
      | some y => simpa using ih hmem

theorem mem_insertSorted (q p : String × DroneRecord) (l : Store) :
    q ∈ insertSorted p l ↔ q = p ∨ q ∈ l := by
  induction l with
  | nil => simp [insertSorted]
  | cons r rest ih =>
    rw [insertSorted]
    split
    · simp [List.mem_cons]
    · rw [List.mem_cons, ih, List.mem_cons]
      tauto

theorem mem_sortStore (q : String × DroneRecord) (st : Store) :
    q ∈ sortStore st ↔ q ∈ st := by
  induction st with
  | nil => simp [sortStore]
  | cons p rest ih => simp [sortStore, mem_insertSorted, ih]

theorem mem_viewBy (p : DroneRecord → Bool) (st : Store) (id : String) :
    id ∈ viewBy p st ↔ ∃ q ∈ st, q.1 = id ∧ p q.2 = true := by
  rw [viewBy, List.mem_filterMap]
  constructor
  · rintro ⟨q, hq, hcond⟩
    rw [mem_sortStore] at hq
    by_cases hb : p q.2 = true
    · rw [if_pos hb] at hcond
      exact ⟨q, hq, Option.some_inj.mp hcond, hb⟩
    · rw [if_neg hb] at hcond; cases hcond
  · rintro ⟨q, hq, hid, hb⟩
    exact ⟨q, (mem_sortStore q st).mpr hq, by rw [if_pos hb, hid]⟩

theorem mem_storeSet (p : String × DroneRecord) (st : Store) (k : String)
    (v : DroneRecord) (h : p ∈ storeSet st k v) : p ∈ st ∨ p = (k, v) := by
  rw [storeSet] at h
  split at h
  · rw [List.mem_map] at h
    obtain ⟨q, hq, hfq⟩ := h
    by_cases hk : q.1 = k
    · right; rw [if_pos hk] at hfq; exact hfq.symm
    · left; rw [if_neg hk] at hfq; rwa [hfq] at hq
  · rw [List.mem_append] at h
    rcases h with h | h
    · exact Or.inl h
    · right; simpa using h

theorem storeLookup_storeSet_self (st : Store) (k : String) (v : DroneRecord) :
    storeLookup (storeSet st k v) k = some v := by
  rw [storeSet]
  split
  case isTrue h =>
    rw [storeLookup]
    induction st with
    | nil => simp at h
    | cons q rest ih =>
      rw [List.map_cons]
      by_cases hk : q.1 = k
      · rw [if_pos hk, List.find?_cons_of_pos _ (by simp)]
        rfl
      · rw [if_neg hk, List.find?_cons_of_neg _ (by simp [hk])]
        apply ih
        rw [List.any_cons] at h
        simpa [hk] using h
  case isFalse h =>
    rw [storeLookup, List.find?_append]
    have hnone : st.find? (fun p => decide (p.1 = k)) = none := by
      rw [List.find?_eq_none]
      intro p hp
      simp only [decide_eq_true_eq]
      intro hpk
      exact h (List.any_eq_true.mpr ⟨p, hp, by simp [hpk]⟩)
    rw [hnone]
    simp [List.find?]

theorem storeLookup_mem (st : Store) (id : String) (rec : DroneRecord)
    (h : storeLookup st id = some rec) : (id, rec) ∈ st := by
  rw [storeLookup, Option.map_eq_some'] at h
  obtain ⟨p, hp, hsnd⟩ := h
  have hmem := List.mem_of_find?_eq_some hp
  have hpred := List.find?_some hp
  simp only [decide_eq_true_eq] at hpred
  have : (id, rec) = p := by
    cases p
    simp only at hpred hsnd
    rw [hpred, hsnd]
  rwa [this]

theorem keys_nodup_eq (st : Store) (hnd : (st.map Prod.fst).Nodup) :
    ∀ p ∈ st, ∀ q ∈ st, p.1 = q.1 → p = q := by
  induction st with
  | nil => intro p hp; cases hp
  | cons r rest ih =>
    rw [List.map_cons, List.nodup_cons] at hnd
    obtain ⟨hr, hrest⟩ := hnd
    intro p hp q hq hpq
    rcases List.mem_cons.mp hp with rfl | hp' <;>
      rcases List.mem_cons.mp hq with rfl | hq'
    · rfl
    · exact absurd (hpq ▸ List.mem_map_of_mem Prod.fst hq') hr
    · exact absurd (hpq ▸ List.mem_map_of_mem Prod.fst hp') hr
    · exact ih hrest p hp' q hq' hpq

theorem displayRssiSik_eq_true (th : ℚ) (ys : List (Option ℚ)) :
    displayRssiSik th ys = true ↔
      ∃ v ∈ ys, ∃ x : ℚ, v = some x ∧ th < x ∧ 0 ≤ x ∧ x ≤ 100 := by
  rw [displayRssiSik, List.any_eq_true]
  constructor
  · rintro ⟨v, hv, hcond⟩
    cases v with
    | none => simp at hcond
    | some x =>
      simp only [Bool.and_eq_true, decide_eq_true_eq] at hcond
      exact ⟨some x, hv, x, rfl, hcond.1.1, hcond.1.2, hcond.2⟩
  · rintro ⟨v, hv, x, rfl, h1, h2, h3⟩
    exact ⟨some x, hv, by simp [h1, h2, h3]⟩

theorem displayDrift_eq_false (th : ℚ) (ys : List (Option ℚ))
    (h : ∀ v ∈ ys, v = none ∨ v = some th) : displayDrift th ys = false := by
  rw [displayDrift, List.any_eq_false]
  intro v hv
  rcases h v hv with rfl | rfl <;> simp

theorem displayBattery_eq_false (th : ℚ) (ys : List (Option ℚ))
    (h : ∀ v ∈ ys, v = none ∨ v = some th) : displayBattery th ys = false := by
  rw [displayBattery, List.any_eq_false]
  intro v hv
  rcases h v hv with rfl | rfl <;> simp

theorem displayRssi_eq_false (th : ℚ) (ys : List (Option ℚ))
    (h : ∀ v ∈ ys, v = none ∨ v = some th) : displayRssi th ys = false := by
  rw [displayRssi, List.any_eq_false]
  intro v hv
  rcases h v hv with rfl | rfl <;> simp

theorem displayRssiSik_eq_false (th : ℚ) (ys : List (Option ℚ))
    (h : ∀ v ∈ ys, v = none ∨ v = some th) : displayRssiSik th ys = false := by
  rw [displayRssiSik, List.any_eq_false]
  intro v hv
  rcases h v hv with rfl | rfl <;> simp

theorem displayGps_eq_true (ys : List ℚ) :
    displayGps ys = true ↔
      (∃ a ∈ ys, ∃ b ∈ ys, a ≠ b) ∧ ∃ v ∈ ys, v ≠ 6 := by
  cases ys with
  | nil => simp [displayGps]
  | cons y0 t =>
    rw [displayGps]
    by_cases hall : ((y0 :: t).all fun v => decide (v = y0)) = true
    · rw [if_pos hall]
      rw [List.all_eq_true] at hall
      simp only [decide_eq_true_eq] at hall
      constructor
      · intro h; cases h
      · rintro ⟨⟨a, ha, b, hb, hab⟩, -⟩
        exact absurd ((hall a ha).trans (hall b hb).symm) hab
    · rw [if_neg hall]
      have hex : ∃ v ∈ y0 :: t, v ≠ y0 := by
        by_contra hno
        push_neg at hno
        exact hall (List.all_eq_true.mpr fun v hv => decide_eq_true (hno v hv))
      rw [List.any_eq_true]
      simp only [decide_eq_true_eq]
      constructor
      · rintro ⟨v, hv, hv6⟩
        obtain ⟨w, hw, hwy⟩ := hex
        exact ⟨⟨w, hw, y0, List.mem_cons_self y0 t, hwy⟩, v, hv, hv6⟩
      · rintro ⟨-, v, hv, hv6⟩
        exact ⟨v, hv, hv6⟩

theorem buildRecord_sameLengths (samples : List Sample) :
    sameLengths (buildRecord samples) := by
  simp [sameLengths, buildRecord]

theorem parseLine_eq_some (line : String) (pr : String × DroneRecord)
    (h : parseLine line = some pr) :
    ∃ samples : List Sample, pr.2 = buildRecord samples := by
  rw [parseLine] at h
  cases h1 : splitFirstSpace (strStrip line) with
  | none => rw [h1] at h; cases h
  | some sp =>
    rw [h1] at h
    simp only [Option.some_bind] at h
    cases h2 : splitEqSecond sp.1 with
    | none => rw [h2] at h; cases h
    | some id =>
      rw [h2] at h
      simp only [Option.some_bind] at h
      cases h3 : mapOpt decodeEntry (pySplitDslash (pySlice1m1 sp.2)) with
      | none => rw [h3] at h; cases h
      | some samples =>
        rw [h3] at h
        simp only [Option.map_some'] at h
        exact ⟨samples, by rw [← Option.some_inj.mp h]⟩

theorem parseLine_nonblank (line : String) (pr : String × DroneRecord)
    (h : parseLine line = some pr) : strStrip line ≠ "" := by
  intro hblank
  rw [parseLine, hblank] at h
  have hs : splitFirstSpace "" = none := rfl
  rw [hs] at h
  simp at h

theorem parse_store_sameLengths :
    ∀ (lines : List String) (st0 st : Store),
      (∀ p ∈ st0, sameLengths p.2) →
      foldOpt parseStep st0 lines = some st →
      ∀ p ∈ st, sameLengths p.2 := by
  intro lines
  induction lines with
  | nil =>
    intro st0 st h0 h p hp
    rw [foldOpt_nil, Option.some_inj] at h
    subst h
    exact h0 p hp
  | cons l ls ih =>
    intro st0 st h0 h
    rw [foldOpt_cons] at h
    cases hstep : parseStep st0 l with
    | none => rw [hstep] at h; cases h
    | some st1 =>
      rw [hstep, Option.some_bind] at h
      refine ih st1 st ?_ h
      intro p hp
      rw [parseStep] at hstep
      split at hstep
      · rw [Option.some_inj] at hstep
        exact h0 p (hstep ▸ hp)
      · rw [Option.map_eq_some'] at hstep
        obtain ⟨pr, hpr, hset⟩ := hstep
        subst hset
        rcases mem_storeSet p st0 pr.1 pr.2 hp with hmem | heq
        · exact h0 p hmem
        · obtain ⟨samples, hsam⟩ := parseLine_eq_some l pr hpr
          rw [heq]
          simpa [hsam] using buildRecord_sameLengths samples

theorem faultOf_ne_zero (s : Sample) (e : Int × Int) (h : faultOf s = some e) :
    e.2 ≠ 0 := by
  rw [faultOf, Option.bind_eq_some] at h
  obtain ⟨c, _, hif⟩ := h
  by_cases h0 : c = 0
  · rw [if_pos h0] at hif; cases hif
  · rw [if_neg h0] at hif
    rw [← Option.some_inj.mp hif]
    exact h0

theorem mem_faultFold (l : Store) (o : String × Int × Int) :
    o ∈ l.foldr (fun p acc =>
        (p.2.fc_errors.filterMap fun e =>
          if (ERROR_CODES e.2).isSome then some (p.1, e.1, e.2) else none) ++ acc) [] →
    ∃ q ∈ l, ∃ e ∈ q.2.fc_errors, (ERROR_CODES e.2).isSome = true ∧ o = (q.1, e.1, e.2) := by
  induction l with
  | nil => intro h; cases h
  | cons p rest ih =>
    intro h
    rw [List.foldr_cons, List.mem_append] at h
    rcases h with h | h
    · rw [List.mem_filterMap] at h
      obtain ⟨e, he, hcond⟩ := h
      by_cases hb : (ERROR_CODES e.2).isSome = true
      · rw [if_pos hb] at hcond
        exact ⟨p, List.mem_cons_self p rest, e, he, hb, (Option.some_inj.mp hcond).symm⟩
      · rw [if_neg hb] at hcond; cases hcond
    · obtain ⟨q, hq, hrest⟩ := ih h
      exact ⟨q, List.mem_cons_of_mem p hq, hrest⟩

/-! ## Claims -/

/-- Claim C1, counterexample.  The claim says a non-blank line lacking the
`id=` separator is skipped (and counted) while the remaining lines are still
parsed into the store, so on this upload the store would contain drone
`"a"`.  In the code the malformed first line raises an uncaught exception
(`ValueError` on the unpacking of `split(' ', 1)`), the whole parse aborts,
and no store is produced at all. -/
theorem C1_counterexample :
    parse_uploaded_file ["garbage", "id=a (1,gps=3)"] = none := by decide

/-- Claim C1, amended: a non-blank line that fails line parsing (for lack of
the space or `id=` separator, or any entry-level failure) aborts the
whole-file parse; no store is built, no skipped-line count exists, and
well-formed lines of the same upload are discarded with it. -/
theorem C1_malformed_line_aborts (lines : List String) (l : String)
    (hmem : l ∈ lines) (hnb : strStrip l ≠ "") (hbad : parseLine l = none) :
    parse_uploaded_file lines = none := by
  have hstep : ∀ st : Store, parseStep st l = none := by
    intro st
    rw [parseStep, if_neg hnb, hbad]
    rfl
  exact foldOpt_abort parseStep l hstep lines hmem []

/-- Witness for `C1_malformed_line_aborts` at the concrete upload
`["garbage"]`. -/
theorem C1_malformed_line_aborts_witness :
    ("garbage" ∈ ["garbage"] ∧ strStrip "garbage" ≠ "" ∧
      parseLine "garbage" = none) ∧
    parse_uploaded_file ["garbage"] = none :=
  ⟨⟨by decide, by decide, by decide⟩,
    C1_malformed_line_aborts ["garbage"] "garbage" (by decide) (by decide) (by decide)⟩

/-- Claim C2, counterexample.  The claim says a bad timestamp token skips
only that entry, so drone `"a"` would keep its second entry and drone `"b"`
would be stored.  In the code `int('x')` raises `ValueError`, the whole
parse aborts, and neither drone is stored. -/
theorem C2_counterexample :
    parse_uploaded_file ["id=a (x,gps=3//2,gps=6)", "id=b (1,gps=6)"] = none := by
  decide

/-- Claim C2, amended: an entry whose first token is not a valid integer, or
whose gps field is absent or fails to parse as a float, makes the whole line
fail (and, by `C1_malformed_line_aborts`, the whole-file parse with it); no
entry-level skipping occurs. -/
theorem C2_bad_entry_aborts (line : String) (pr : String × String) (id : String)
    (h1 : splitFirstSpace (strStrip line) = some pr)
    (h2 : splitEqSecond pr.1 = some id)
    (h3 : ∃ e ∈ pySplitDslash (pySlice1m1 pr.2), decodeEntry e = none) :
    parseLine line = none := by
  obtain ⟨e, he, hde⟩ := h3
  rw [parseLine, h1, Option.some_bind, h2, Option.some_bind,
    mapOpt_eq_none decodeEntry _ e he hde]
  rfl

/-- Witness for `C2_bad_entry_aborts` at the concrete line
`id=a (x,gps=3//2,gps=6)`: its first entry has the non-numeric timestamp
`x`. -/
theorem C2_bad_entry_aborts_witness :
    (splitFirstSpace (strStrip "id=a (x,gps=3//2,gps=6)") =
        some ("id=a", "(x,gps=3//2,gps=6)") ∧
      (∃ e ∈ pySplitDslash (pySlice1m1 "(x,gps=3//2,gps=6)"),
        decodeEntry e = none)) ∧
    parseLine "id=a (x,gps=3//2,gps=6)" = none :=
  ⟨⟨by decide, by decide⟩,
    C2_bad_entry_aborts "id=a (x,gps=3//2,gps=6)" ("id=a", "(x,gps=3//2,gps=6)") "a"
      (by decide) (by decide) (by decide)⟩

/-- Claim C3: for every non-empty store and every threshold, the rssiSik
view contains exactly the drones with at least one rssi sample that is
present, strictly above the threshold, and within `[0, 100]`; out-of-range
samples simply fail the predicate (they are never an error), and the view is
a total computation on every store. -/
theorem C3_rssiSik_view (st : Store) (th : ℚ) (_hne : st ≠ []) (id : String) :
    id ∈ rssiSikView st th ↔
      ∃ q ∈ st, q.1 = id ∧
        ∃ v ∈ q.2.rssis, ∃ x : ℚ, v = some x ∧ th < x ∧ 0 ≤ x ∧ x ≤ 100 := by
  rw [rssiSikView, mem_viewBy]
  constructor
  · rintro ⟨q, hq, hid, hdisp⟩
    exact ⟨q, hq, hid, (displayRssiSik_eq_true th q.2.rssis).mp hdisp⟩
  · rintro ⟨q, hq, hid, hex⟩
    exact ⟨q, hq, hid, (displayRssiSik_eq_true th q.2.rssis).mpr hex⟩

/-- Witness for `C3_rssiSik_view` on a one-drone store whose single rssi
sample is 50, against threshold 10. -/
theorem C3_rssiSik_view_witness :
    [("a", recRssi50)] ≠ [] ∧
    ("a" ∈ rssiSikView [("a", recRssi50)] 10 ↔
      ∃ q ∈ [("a", recRssi50)], q.1 = "a" ∧
        ∃ v ∈ q.2.rssis, ∃ x : ℚ, v = some x ∧ 10 < x ∧ 0 ≤ x ∧ x ≤ 100) :=
  ⟨by decide, C3_rssiSik_view [("a", recRssi50)] 10 (by decide) "a"⟩

/-- Claim C4, counterexample.  The claim says every optional field whose
value is the literal `None` decodes to an absent optional; in the code only
the `rssi` branch checks for `None`, so `battery=None` reaches
`float('None')`, raises `ValueError`, and aborts the whole parse — the store
the claim predicts (drone `a` with an absent battery) is never built. -/
theorem C4_counterexample :
    parse_uploaded_file ["id=a (1,gps=6,battery=None)"] = none := by decide

/-- Claim C4, amended: only the `rssi` field treats the case-sensitive
literal `None` as an absent optional (and the rest of the entry decodes
normally); for `battery`, `driftH`, `driftV` and `fc_error` the value `None`
is a numeric-parse failure that aborts the parse. -/
theorem C4_none_sentinel_rssi_only :
    (∀ s : Sample, applyPart s "rssi=None" = some { s with rssi := none }) ∧
    (∀ s : Sample, applyPart s "battery=None" = none) ∧
    (∀ s : Sample, applyPart s "driftH=None" = none) ∧
    (∀ s : Sample, applyPart s "driftV=None" = none) ∧
    (∀ s : Sample, applyPart s "fc_error=None" = none) ∧
    parse_uploaded_file ["id=a (1,gps=6,rssi=None)"] = some [("a", recSimple)] :=
  ⟨fun _ => rfl, fun _ => rfl, fun _ => rfl, fun _ => rfl, fun _ => rfl, by decide⟩

/-- Claim C5, counterexample.  The claim says the list of non-nominal GPS
drone identifiers is sorted lexicographically; the code builds it in dict
insertion order (the order of the lines in the file), so uploading drone
`b` before drone `a` yields `["b", "a"]`, which is not sorted. -/
theorem C5_counterexample :
    (parse_uploaded_file ["id=b (1,gps=3)", "id=a (1,gps=3)"]).map
        nonNominalGpsDroneIds = some ["b", "a"] ∧
      strLe "b" "a" = false := by
  decide

/-- Claim C5, amended: the fleet summary's list contains exactly the drones
having at least one sample with gpsStatus different from 6, listed in store
insertion order (a sublist of the store's key sequence), not sorted. -/
theorem C5_nonNominal_membership_and_order (st : Store) (id : String) :
    (id ∈ nonNominalGpsDroneIds st ↔
      ∃ q ∈ st, q.1 = id ∧ ∃ g ∈ q.2.gps_statuses, g ≠ 6) ∧
    List.Sublist (nonNominalGpsDroneIds st) (st.map Prod.fst) := by
  constructor
  · rw [nonNominalGpsDroneIds, List.mem_filterMap]
    constructor
    · rintro ⟨q, hq, hcond⟩
      by_cases hb : (q.2.gps_statuses.any fun g => decide (g ≠ 6)) = true
      · rw [if_pos hb] at hcond
        rw [List.any_eq_true] at hb
        simp only [decide_eq_true_eq] at hb
        exact ⟨q, hq, Option.some_inj.mp hcond, hb⟩
      · rw [if_neg hb] at hcond; cases hcond
    · rintro ⟨q, hq, hid, g, hg, hg6⟩
      refine ⟨q, hq, ?_⟩
      rw [if_pos (List.any_eq_true.mpr ⟨g, hg, decide_eq_true hg6⟩), hid]
  · induction st with
    | nil => exact List.nil_sublist _
    | cons q rest ih =>
      by_cases hb : ∃ g ∈ q.2.gps_statuses, ¬g = 6
      · have hcons : nonNominalGpsDroneIds (q :: rest) =
            q.1 :: nonNominalGpsDroneIds rest := by
          simp [nonNominalGpsDroneIds, List.filterMap_cons, hb]
        rw [hcons, List.map_cons]
        exact List.Sublist.cons₂ q.1 ih
      · have hcons : nonNominalGpsDroneIds (q :: rest) =
            nonNominalGpsDroneIds rest := by
          simp [nonNominalGpsDroneIds, List.filterMap_cons, hb]
        rw [hcons, List.map_cons]
        exact List.Sublist.cons q.1 ih

/-- Claim C6: under every threshold-parameterized metric view (driftHs,
driftVs, batteries, rssis, rssi_sik) a drone whose only present samples for
the metric are exactly equal to the threshold is excluded: the comparisons
are strict (`>` for drift/rssi/rssiSik, `<` for battery) and absent samples
never satisfy the predicate. -/
theorem C6_thresholds_strict (th : ℚ) (st : Store) (id : String)
    (h : ∀ q ∈ st, q.1 = id →
      (∀ v ∈ q.2.driftHs, v = none ∨ v = some th) ∧
      (∀ v ∈ q.2.driftVs, v = none ∨ v = some th) ∧
      (∀ v ∈ q.2.batteries, v = none ∨ v = some th) ∧
      (∀ v ∈ q.2.rssis, v = none ∨ v = some th)) :
    id ∉ driftHView st th ∧ id ∉ driftVView st th ∧ id ∉ batteryView st th ∧
      id ∉ rssiView st th ∧ id ∉ rssiSikView st th := by
  refine ⟨?_, ?_, ?_, ?_, ?_⟩ <;> intro hmem
  · rw [driftHView, mem_viewBy] at hmem
    obtain ⟨q, hq, hid, hdisp⟩ := hmem
    rw [displayDrift_eq_false th q.2.driftHs (h q hq hid).1] at hdisp
    cases hdisp
  · rw [driftVView, mem_viewBy] at hmem
    obtain ⟨q, hq, hid, hdisp⟩ := hmem
    rw [displayDrift_eq_false th q.2.driftVs (h q hq hid).2.1] at hdisp
    cases hdisp
  · rw [batteryView, mem_viewBy] at hmem
    obtain ⟨q, hq, hid, hdisp⟩ := hmem
    rw [displayBattery_eq_false th q.2.batteries (h q hq hid).2.2.1] at hdisp
    cases hdisp
  · rw [rssiView, mem_viewBy] at hmem
    obtain ⟨q, hq, hid, hdisp⟩ := hmem
    rw [displayRssi_eq_false th q.2.rssis (h q hq hid).2.2.2] at hdisp
    cases hdisp
  · rw [rssiSikView, mem_viewBy] at hmem
    obtain ⟨q, hq, hid, hdisp⟩ := hmem
    rw [displayRssiSik_eq_false th q.2.rssis (h q hq hid).2.2.2] at hdisp
    cases hdisp

/-- Witness for `C6_thresholds_strict`: a drone whose every metric sample is
exactly 5 (plus one absent sample per series would change nothing) is in no
view at threshold 5. -/
theorem C6_thresholds_strict_witness :
    "a" ∉ driftHView [("a", recAt5)] 5 ∧ "a" ∉ driftVView [("a", recAt5)] 5 ∧
      "a" ∉ batteryView [("a", recAt5)] 5 ∧ "a" ∉ rssiView [("a", recAt5)] 5 ∧
      "a" ∉ rssiSikView [("a", recAt5)] 5 :=
  C6_thresholds_strict 5 [("a", recAt5)] "a" (by decide)

/-- Claim C7: a drone of a non-empty store appears in the gpsStatus view iff
its gpsStatus samples are not all identical and at least one sample differs
from the nominal code 6 (for a drone whose samples are all 6 both conjuncts
fail, so it is excluded from every gpsStatus view). -/
theorem C7_gps_view (st : Store) (_hne : st ≠ [])
    (hnd : (st.map Prod.fst).Nodup) (id : String) (rec : DroneRecord)
    (hlk : storeLookup st id = some rec) :
    id ∈ gpsView st ↔
      ((∃ a ∈ rec.gps_statuses, ∃ b ∈ rec.gps_statuses, a ≠ b) ∧
        ∃ v ∈ rec.gps_statuses, v ≠ 6) := by
  rw [gpsView, mem_viewBy]
  constructor
  · rintro ⟨q, hq, hid, hdisp⟩
    have hq' : q = (id, rec) :=
      keys_nodup_eq st hnd q hq (id, rec) (storeLookup_mem st id rec hlk)
        (by rw [hid])
    rw [hq'] at hdisp
    exact (displayGps_eq_true rec.gps_statuses).mp hdisp
  · intro hrhs
    exact ⟨(id, rec), storeLookup_mem st id rec hlk, rfl,
      (displayGps_eq_true rec.gps_statuses).mpr hrhs⟩

/-- Witness for `C7_gps_view` on a one-drone store whose gps statuses are
`[6, 3]`. -/
theorem C7_gps_view_witness :
    storeLookup [("a", recGps63)] "a" = some recGps63 ∧
    ("a" ∈ gpsView [("a", recGps63)] ↔
      ((∃ a ∈ recGps63.gps_statuses, ∃ b ∈ recGps63.gps_statuses, a ≠ b) ∧
        ∃ v ∈ recGps63.gps_statuses, v ≠ 6)) :=
  ⟨by decide,
    C7_gps_view [("a", recGps63)] (by decide) (by decide) "a" recGps63 (by decide)⟩

/-- Claim C8: a fault code that is absent or decodes to exactly 0 is never
recorded in `fc_errors` (Python truthiness of `if fc_error:`), and code 0
never appears in the fault-category grouping of any store (it is also absent
from `ERROR_CODES`); even an explicit `fc_error=0` token leaves the fault
list empty. -/
theorem C8_zero_fault_never_recorded :
    (∀ samples : List Sample,
      ((buildRecord samples).fc_errors.all fun e => e.2 != 0) = true) ∧
    (∀ st : Store, ((faultOccurrences st).all fun o => o.2.2 != 0) = true) ∧
    parse_uploaded_file ["id=a (1,gps=6,fc_error=0)"] = some [("a", recSimple)] := by
  refine ⟨?_, ?_, by decide⟩
  · intro samples
    rw [List.all_eq_true]
    intro e he
    simp only [buildRecord] at he
    rw [List.mem_filterMap] at he
    obtain ⟨s, _, hf⟩ := he
    simpa using faultOf_ne_zero s e hf
  · intro st
    rw [List.all_eq_true]
    intro o ho
    rw [faultOccurrences] at ho
    obtain ⟨q, _, e, _, hsome, rfl⟩ := mem_faultFold (sortStore st) o ho
    have hne : e.2 ≠ 0 := by
      intro h0
      rw [h0] at hsome
      exact absurd hsome (by decide)
    simpa using hne

/-- Claim C9: after every successful parse, every drone record's six
per-field sample sequences (timestamps, gps_statuses, batteries, rssis,
driftHs, driftVs) have equal length, so index `i` across them describes the
same instant. -/
theorem C9_sequences_aligned (lines : List String) (st : Store)
    (h : parse_uploaded_file lines = some st) (p : String × DroneRecord)
    (hp : p ∈ st) : sameLengths p.2 :=
  parse_store_sameLengths lines [] st (fun q hq => absurd hq (List.not_mem_nil q))
    h p hp

/-- Witness for `C9_sequences_aligned` on the concrete upload
`["id=a (1,gps=6)"]`. -/
theorem C9_sequences_aligned_witness :
    parse_uploaded_file ["id=a (1,gps=6)"] = some [("a", recSimple)] ∧
      sameLengths recSimple :=
  ⟨by decide,
    C9_sequences_aligned ["id=a (1,gps=6)"] [("a", recSimple)] (by decide)
      ("a", recSimple) (by decide)⟩

/-- Claim C10: when an upload ends with a well-formed line whose drone
identifier already occurs in the store parsed from the earlier lines, the
resulting store is the earlier store updated in place (`storeSet`) and the
identifier now maps to the record of the last line — the earlier record is
overwritten, never merged and never an error. -/
theorem C10_duplicate_id_last_wins (lines : List String) (l2 : String)
    (st : Store) (id : String) (r2 : DroneRecord)
    (h1 : parse_uploaded_file lines = some st)
    (h2 : parseLine l2 = some (id, r2)) :
    parse_uploaded_file (lines ++ [l2]) = some (storeSet st id r2) ∧
      storeLookup (storeSet st id r2) id = some r2 := by
  have hnb := parseLine_nonblank l2 (id, r2) h2
  constructor
  · rw [parse_uploaded_file] at h1 ⊢
    rw [foldOpt_append, h1, Option.some_bind, foldOpt_cons, parseStep,
      if_neg hnb, h2]
    rfl
  · exact storeLookup_storeSet_self st id r2

/-- Witness for `C10_duplicate_id_last_wins`: two lines for drone `a`; the
final store holds only the second line's record. -/
theorem C10_duplicate_id_last_wins_witness :
    parse_uploaded_file ["id=a (1,gps=6)", "id=a (2,gps=3)"] =
        some (storeSet [("a", recSimple)] "a" recSimple2) ∧
      storeLookup (storeSet [("a", recSimple)] "a" recSimple2) "a" =
        some recSimple2 :=
  C10_duplicate_id_last_wins ["id=a (1,gps=6)"] "id=a (2,gps=3)"
    [("a", recSimple)] "a" recSimple2 (by decide) (by decide)

end DroneMonitor
